import Mathlib

/-!
Verification of the benchmark harness in `benchmark.py`
(jonnypeace/Simple_Python_Benchmark): a shallow embedding of the
work partitioner, the pooled executor, the timing harness and the
driver control flow, with proofs of the spec's claims about them.
-/

/-- Chunk-plan computation of `run_multiprocessing` (benchmark.py lines
137-143), factored out under the spec's name `partition`:
`chunk_size = total_iterations // num_processes`;
`chunks = [chunk_size] * num_processes`;
`remainder = total_iterations % num_processes`;
`if remainder > 0: chunks.append(remainder)`.
For `num_processes >= 1` and `total_iterations >= 0` (the preconditions of
every claim) Lean's `Nat` division and modulo agree with Python's. -/
def partition (total_iterations num_processes : Nat) : List Nat :=
  let chunk_size := total_iterations / num_processes
  let chunks := List.replicate num_processes chunk_size
  let remainder := total_iterations % num_processes
  if remainder > 0 then chunks ++ [remainder] else chunks

/-- C1: For every `total >= 0` and `workers >= 1`, the chunk plan built by
`run_multiprocessing`'s chunk computation sums exactly to `total`, with no
rounding loss. -/
theorem partition_sum (total workers : Nat) (h : 1 ≤ workers) :
    (partition total workers).sum = total := by
  have hd := Nat.div_add_mod total workers
  by_cases hr : 0 < total % workers
  · simp only [partition, if_pos hr, List.sum_append, List.sum_replicate,
      List.sum_cons, List.sum_nil, smul_eq_mul]
    omega
  · simp only [partition, if_neg hr, List.sum_replicate, smul_eq_mul]
    omega

/-- Witness for `partition_sum` at `total = 10`, `workers = 3`. -/
theorem partition_sum_witness : 1 ≤ 3 ∧ (partition 10 3).sum = 10 :=
  ⟨by decide, partition_sum 10 3 (by decide)⟩

/-- C4: For every `total >= 0` and `workers >= 1`, the length of the chunk
plan is exactly `workers` when `total % workers == 0`, and exactly
`workers + 1` otherwise. -/
theorem partition_length (total workers : Nat) (h : 1 ≤ workers) :
    (partition total workers).length =
      if total % workers = 0 then workers else workers + 1 := by
  by_cases hr : total % workers = 0
  · simp [partition, hr]
  · have hpos : 0 < total % workers := Nat.pos_of_ne_zero hr
    simp [partition, hpos, hr]

/-- Witness for `partition_length` at `total = 10`, `workers = 3`. -/
theorem partition_length_witness :
    1 ≤ 3 ∧ (partition 10 3).length = if 10 % 3 = 0 then 3 else 3 + 1 :=
  ⟨by decide, partition_length 10 3 (by decide)⟩

/-- C5: For `workers > total > 0`, the plan is `workers` zero-sized chunks
followed by one remainder chunk equal to `total`. -/
theorem partition_small_total (total workers : Nat)
    (h0 : 0 < total) (h1 : total < workers) :
    partition total workers = List.replicate workers 0 ++ [total] := by
  have hdiv : total / workers = 0 := Nat.div_eq_of_lt h1
  have hmod : total % workers = total := Nat.mod_eq_of_lt h1
  simp [partition, hdiv, hmod, h0]

/-- Witness for `partition_small_total` at `total = 2`, `workers = 5`:
`partition 2 5 = [0,0,0,0,0,2]`, the spec's end-to-end scenario 3. -/
theorem partition_small_total_witness :
    0 < 2 ∧ 2 < 5 ∧ partition 2 5 = List.replicate 5 0 ++ [2] :=
  ⟨by decide, by decide, partition_small_total 2 5 (by decide) (by decide)⟩

/-- C3 counterexample: at `total = 2`, `workers = 5` the plan is
`[0,0,0,0,0,2]`, so the remainder chunk is `2`, and `2` is NOT strictly
less than `total / workers = 2/5`: the claimed bound on the remainder
chunk fails. -/
theorem partition_remainder_counterexample :
    partition 2 5 = [0, 0, 0, 0, 0, 2] ∧
    (partition 2 5).getLast? = some 2 ∧
    ¬ ((2 : ℚ) < (2 : ℚ) / (5 : ℚ)) := by
  refine ⟨by decide, by decide, by norm_num⟩

/-- C3 amended: every chunk in the plan is `>= 0`, and whenever the
remainder chunk is present (`total % workers != 0`) it equals
`total % workers` and is strictly less than `workers` (not strictly less
than `total / workers`, which fails e.g. at `total = 2`, `workers = 5`). -/
theorem partition_invariant (total workers : Nat) (h : 1 ≤ workers) :
    (∀ c ∈ partition total workers, 0 ≤ c) ∧
    (total % workers ≠ 0 →
      (partition total workers).getLast? = some (total % workers) ∧
      total % workers < workers) := by
  refine ⟨fun c _ => Nat.zero_le c, fun hr => ⟨?_, Nat.mod_lt _ (by omega)⟩⟩
  have hpos : 0 < total % workers := Nat.pos_of_ne_zero hr
  simp [partition, hpos]

/-- Witness for `partition_invariant` at `total = 14`, `workers = 4`. -/
theorem partition_invariant_witness :
    1 ≤ 4 ∧
    ((∀ c ∈ partition 14 4, 0 ≤ c) ∧
      (14 % 4 ≠ 0 →
        (partition 14 4).getLast? = some (14 % 4) ∧ 14 % 4 < 4)) :=
  ⟨by decide, partition_invariant 14 4 (by decide)⟩

/-- Observable events of one `timer` call (benchmark.py lines 8-16):
`clockRead k` is the k-th call to `time.time()` inside the loop, and
`invoke i` is the i-th invocation of the wrapped function `func`.
Repetition `i` performs `clockRead (2*i)`, then `invoke i`, then
`clockRead (2*i+1)`. -/
inductive TimerEvent : Type
  | clockRead (k : Nat)
  | invoke (i : Nat)
deriving DecidableEq

/-- The report line printed by `timer`:
`f"{mode} Time (avg over {repeat} runs): {avg_time:.2f} seconds"`,
modelled structurally by its interpolated fields (the two-decimal
rendering of `avg_time` is a presentation detail). -/
structure ReportLine : Type where
  mode : String
  runs : Nat
  avg_time : ℚ
deriving DecidableEq

/-- The `for _ in range(repeat)` loop of `timer`: after `n` iterations the
state holds the events so far and `total_time`, the running sum of
`time.time() - start_time` differences. The clock is an oracle
`clock : Nat → ℚ` giving the value returned by the k-th `time.time()`
call; `time.time()` is the system wall clock, so no monotonicity
assumption on `clock` is available. -/
def timerLoop (clock : Nat → ℚ) : Nat → List TimerEvent × ℚ
  | 0 => ([], 0)
  | n + 1 =>
    let s := timerLoop clock n
    (s.1 ++ [TimerEvent.clockRead (2 * n), TimerEvent.invoke n,
       TimerEvent.clockRead (2 * n + 1)],
     s.2 + (clock (2 * n + 1) - clock (2 * n)))

/-- Shallow embedding of `timer` (benchmark.py lines 8-16): runs the loop
`repeat` times, then computes `avg_time = total_time / repeat` and prints
the report line. In Python, when `repeat == 0` the division `0 / 0`
raises an uncaught `ZeroDivisionError`, modelled as the error branch;
otherwise the call returns the emitted report line. The result pairs the
event trace with the outcome. -/
def timer (mode : String) (clock : Nat → ℚ) (repeatCount : Nat) :
    List TimerEvent × Except String ReportLine :=
  let s := timerLoop clock repeatCount
  if repeatCount = 0 then
    (s.1, Except.error "ZeroDivisionError: division by zero")
  else
    (s.1, Except.ok ⟨mode, repeatCount, s.2 / (repeatCount : ℚ)⟩)

/-- Indices of the `func` invocations in an event trace, in order. -/
def invocations : List TimerEvent → List Nat
  | [] => []
  | TimerEvent.invoke i :: es => i :: invocations es
  | TimerEvent.clockRead _ :: es => invocations es

theorem invocations_append (l1 l2 : List TimerEvent) :
    invocations (l1 ++ l2) = invocations l1 ++ invocations l2 := by
  induction l1 with
  | nil => rfl
  | cons e es ih => cases e <;> simp [invocations, ih]

theorem timerLoop_invocations (clock : Nat → ℚ) (n : Nat) :
    invocations (timerLoop clock n).1 = List.range n := by
  induction n with
  | zero => rfl
  | succ k ih =>
    simp [timerLoop, invocations_append, invocations, List.range_succ, ih]

theorem timerLoop_total (clock : Nat → ℚ) (n : Nat) :
    (timerLoop clock n).2 =
      ∑ i in Finset.range n, (clock (2 * i + 1) - clock (2 * i)) := by
  induction n with
  | zero => rfl
  | succ k ih =>
    show (timerLoop clock k).2 + (clock (2 * k + 1) - clock (2 * k)) = _
    rw [Finset.sum_range_succ, ih]

/-- C2 counterexample: calling `timer` with `repeat = 0` produces
precisely an uncaught `ZeroDivisionError` — the division-by-zero outcome
the claim says is avoided in favour of a pre-checked descriptive
configuration error. -/
theorem timer_zero_counterexample :
    (timer "Single Threaded" (fun _ => (0 : ℚ)) 0).2 =
      Except.error "ZeroDivisionError: division by zero" := rfl

/-- C2 amended: calling `timer` with `repeat == 0` performs zero
invocations of the wrapped function and raises an uncaught
`ZeroDivisionError` at the averaging step `total_time / repeat`, so no
zero or misleading duration is reported and no benchmark executes first;
but the failure is the division-by-zero itself, not a configuration check
with a descriptive message. -/
theorem timer_zero_repeat (mode : String) (clock : Nat → ℚ) :
    invocations (timer mode clock 0).1 = [] ∧
    (timer mode clock 0).2 =
      Except.error "ZeroDivisionError: division by zero" :=
  ⟨rfl, rfl⟩

/-- Clock oracle whose second reading precedes its first: an admissible
behaviour of `time.time()` (the system clock may be stepped backwards),
impossible for a monotonic clock. -/
def clockBack : Nat → ℚ := fun k => if k = 0 then 10 else 5

/-- C6 counterexample: with `repeat = 1` and the backwards-stepping clock
`clockBack`, `timer` reports an average of `-5` seconds. A negative
reported mean is impossible when each repetition's elapsed time is
measured with a monotonic clock, so the claim's "measures ... with a
monotonic clock" is false of the code, which uses the non-monotonic
system wall clock `time.time()`. -/
theorem timer_nonmonotonic_counterexample :
    (timer "Single Threaded" clockBack 1).2 =
      Except.ok ⟨"Single Threaded", 1, -5⟩ ∧ (-5 : ℚ) < 0 := by
  constructor
  · show Except.ok ⟨"Single Threaded", 1, ((0 : ℚ) + (5 - 10)) / (1 : ℚ)⟩ =
      Except.ok (⟨"Single Threaded", 1, -5⟩ : ReportLine)
    norm_num
  · norm_num

/-- C6 amended: for every `repeat >= 1`, `timer` invokes the wrapped
operation exactly `repeat` times sequentially (invocations `0,...,repeat-1`
in order, each bracketed by two `time.time()` readings), sums the
per-repetition differences of consecutive readings of the system wall
clock `time.time()` — not a monotonic clock — and reports the arithmetic
mean (sum divided by `repeat`) in one line carrying the mode label and
the repeat count. -/
theorem timer_exact_repeats (mode : String) (clock : Nat → ℚ)
    (r : Nat) (h : 1 ≤ r) :
    invocations (timer mode clock r).1 = List.range r ∧
    (timer mode clock r).2 =
      Except.ok ⟨mode, r,
        (∑ i in Finset.range r, (clock (2 * i + 1) - clock (2 * i))) /
          (r : ℚ)⟩ := by
  have hr : ¬ (r = 0) := by omega
  refine ⟨?_, ?_⟩
  · simp [timer, hr, timerLoop_invocations]
  · simp [timer, hr, timerLoop_total]

/-- Witness for `timer_exact_repeats` at `repeat = 3` with the clock
`k ↦ k` (each repetition lasts one second). -/
theorem timer_exact_repeats_witness :
    1 ≤ 3 ∧
    (invocations (timer "Single Threaded" (fun k => (k : ℚ)) 3).1 =
        List.range 3 ∧
      (timer "Single Threaded" (fun k => (k : ℚ)) 3).2 =
        Except.ok ⟨"Single Threaded", 3,
          (∑ i in Finset.range 3,
            (((2 * i + 1 : Nat) : ℚ) - ((2 * i : Nat) : ℚ))) / (3 : ℚ)⟩) :=
  ⟨by decide, timer_exact_repeats "Single Threaded" (fun k => (k : ℚ)) 3
    (by decide)⟩

/-- Embedding of `pool.map(task_function, chunks)` (benchmark.py line
146): every chunk in the list is dispatched to a worker and the caller
blocks until all have completed; if any worker's `task_function`
invocation raises, `pool.map` re-raises that exception, otherwise it
returns the list of (discarded) results. A worker invocation is modelled
as `task : Nat → Except String Unit`. -/
def poolMap (task : Nat → Except String Unit) :
    List Nat → Except String (List Unit)
  | [] => Except.ok []
  | c :: cs =>
    match task c with
    | Except.error e => Except.error e
    | Except.ok r =>
      match poolMap task cs with
      | Except.error e => Except.error e
      | Except.ok rs => Except.ok (r :: rs)

/-- Shallow embedding of `run_multiprocessing` (benchmark.py lines
135-146): builds the chunk plan, then maps `task_function` over it in a
pool. With `num_processes = 0`, Python raises `ZeroDivisionError` at
`total_iterations // num_processes` before the pool is created. The
return value is discarded by the caller, so success is `Except.ok ()`. -/
def run_multiprocessing (task : Nat → Except String Unit)
    (total_iterations num_processes : Nat) : Except String Unit :=
  if num_processes = 0 then
    Except.error "ZeroDivisionError: integer division or modulo by zero"
  else
    match poolMap task (partition total_iterations num_processes) with
    | Except.error e => Except.error e
    | Except.ok _ => Except.ok ()

/-- Boolean success test for an `Except` outcome. -/
def exceptOk {ε α : Type} : Except ε α → Bool
  | Except.ok _ => true
  | Except.error _ => false

theorem poolMap_ok_iff (task : Nat → Except String Unit) (l : List Nat) :
    exceptOk (poolMap task l) = true ↔ ∀ c ∈ l, task c = Except.ok () := by
  induction l with
  | nil => simp [poolMap, exceptOk]
  | cons c cs ih =>
    cases hc : task c with
    | error e => simp [poolMap, hc, exceptOk]
    | ok r =>
      cases r
      cases hp : poolMap task cs with
      | error e =>
        rw [hp] at ih
        simp only [exceptOk] at ih
        simp [poolMap, hc, hp, exceptOk, ← ih]
      | ok rs =>
        rw [hp] at ih
        simp only [exceptOk] at ih
        simp [poolMap, hc, hp, exceptOk, ← ih]

/-- C7: for every task and `workers >= 1`, `run_multiprocessing` reports
success exactly when every chunk of the plan was processed to completion
by its worker; if any worker's workload invocation raises, the whole call
fails — it never reports success. (In this sequential model, returning
the final outcome after all chunk invocations captures blocking until
every dispatched chunk has completed.) -/
theorem run_multiprocessing_ok_iff (task : Nat → Except String Unit)
    (total workers : Nat) (h : 1 ≤ workers) :
    run_multiprocessing task total workers = Except.ok () ↔
      ∀ c ∈ partition total workers, task c = Except.ok () := by
  have hw : ¬ (workers = 0) := by omega
  rw [run_multiprocessing, if_neg hw, ← poolMap_ok_iff]
  cases hp : poolMap task (partition total workers) with
  | error e => simp [exceptOk]
  | ok rs => simp [exceptOk]

/-- Witness for `run_multiprocessing_ok_iff` with an always-succeeding
task at `total = 10`, `workers = 3`. -/
theorem run_multiprocessing_ok_iff_witness :
    1 ≤ 3 ∧
    (run_multiprocessing (fun _ => Except.ok ()) 10 3 = Except.ok () ↔
      ∀ c ∈ partition 10 3,
        (fun _ => (Except.ok () : Except String Unit)) c = Except.ok ()) :=
  ⟨by decide, run_multiprocessing_ok_iff (fun _ => Except.ok ()) 10 3
    (by decide)⟩

/-- Embedding of `integer_operations` (benchmark.py lines 80-84):
`count = 0`; `for i in range(n): count += i % 2`; `return count`. -/
def integer_operations (n : Nat) : Nat :=
  (List.range n).foldl (fun count i => count + i % 2) 0

/-- C9: for every `n >= 0`, `integer_operations n` returns exactly
`n / 2` (the number of odd integers among `0, ..., n-1`). -/
theorem integer_operations_eq_half (n : Nat) :
    integer_operations n = n / 2 := by
  induction n with
  | zero => rfl
  | succ k ih =>
    have hstep : integer_operations (k + 1) = integer_operations k + k % 2 := by
      simp [integer_operations, List.range_succ]
    omega

/-- Observable driver events of `main` (benchmark.py lines 148-204):
`output s` is a `print` of `s`, and `benchmark f mode` is one `timer`
(resp. direct) invocation of workload `f` in the given mode. Numeric
values interpolated into output at run time (measured durations) are
abstracted as the text "(measured)". -/
inductive MainEvent : Type
  | output (s : String)
  | benchmark (workload : String) (mode : String)
deriving DecidableEq

/-- The benchmark portion of `main` (benchmark.py lines 171-204), as the
ordered event sequence it performs: the starting banner, then categories
[1]-[6], then — only when `enable_numpy` is set — category [7]. -/
def benchmarkTrace (num_processes : Nat) (enable_numpy : Bool) :
    List MainEvent :=
  [MainEvent.output
      ("Starting benchmarks with " ++ toString num_processes ++
        " processes..."),
   MainEvent.output "\n[1] Integer Operations",
   MainEvent.benchmark "integer_operations" "Single Threaded",
   MainEvent.benchmark "integer_operations" "Multiprocessing",
   MainEvent.output "\n[2] Floating-Point Operations",
   MainEvent.benchmark "floating_point_operations" "Single Threaded",
   MainEvent.benchmark "floating_point_operations" "Multiprocessing",
   MainEvent.output "\n[3] Encryption (SHA-256) Operations",
   MainEvent.benchmark "encryption_operations" "Single Threaded",
   MainEvent.benchmark "encryption_operations" "Multiprocessing",
   MainEvent.output "\n[4] Compression Operations",
   MainEvent.benchmark "compression_operations" "Single Threaded",
   MainEvent.benchmark "compression_operations" "Multiprocessing",
   MainEvent.output "\n[5] Disk I/O Operations",
   MainEvent.benchmark "disk_io_operations" "Direct",
   MainEvent.output "Write Time: (measured) seconds",
   MainEvent.output "Read Time: (measured) seconds",
   MainEvent.output "\n[6] Memory Speed Operations",
   MainEvent.benchmark "memory_speed_operations" "Single Threaded"] ++
  (if enable_numpy then
    [MainEvent.output "\n[7] Numpy Matrix Maths Operations",
     MainEvent.benchmark "matrix_operations" "Single Threaded"]
   else [])

/-- Shallow embedding of `main` after argument parsing (benchmark.py
lines 163-204): if `enable_numpy` is set and `numpy` cannot be imported,
`main` prints the error line and calls `exit(1)` before anything else;
otherwise it performs the benchmark trace and finishes with exit status
0. Returns the event trace paired with the exit status. -/
def mainRun (num_processes : Nat) (enable_numpy numpy_available : Bool) :
    List MainEvent × Nat :=
  if enable_numpy && !numpy_available then
    ([MainEvent.output "Error: Numpy not found. Check environment"], 1)
  else
    (benchmarkTrace num_processes enable_numpy, 0)

/-- C8: when the numpy category is requested and numpy is unavailable,
`main` exits with status 1, its only output is the diagnostic line
`Error: Numpy not found. Check environment`, and no benchmark runs (so
nothing is printed before the diagnostic and no benchmark output ever
appears). -/
theorem numpy_missing_fails_fast (n : Nat) :
    (mainRun n true false).2 = 1 ∧
    (mainRun n true false).1 =
      [MainEvent.output "Error: Numpy not found. Check environment"] ∧
    ∀ w m, MainEvent.benchmark w m ∉ (mainRun n true false).1 := by
  refine ⟨rfl, rfl, ?_⟩
  intro w m hmem
  simp [mainRun] at hmem

/-- Python's `bool(s)` on a string: `False` exactly when `s` is empty.
`argparse` with `type=bool` applies this to the raw argument text. -/
def pythonBool (s : String) : Bool := if s = "" then false else true

/-- Value of `args.enable_numpy` (benchmark.py line 159): the flag is
declared `type=bool, default=False`, so an omitted flag gives `False`
and a supplied argument text `v` gives `bool(v)`. -/
def parseEnableNumpy : Option String → Bool
  | none => false
  | some v => pythonBool v

/-- C10: because `--enable_numpy` is declared with `type=bool`, any
non-empty argument text — including "False" and "0" — parses to `True`,
turning on the numpy availability check (exit 1 when numpy is absent)
and the numpy benchmark category (present in the trace when numpy is
available); only an empty-string argument or omitting the flag leaves it
disabled. -/
theorem enable_numpy_truthiness (s : String) (n : Nat) (h : s ≠ "") :
    parseEnableNumpy (some s) = true ∧
    parseEnableNumpy (some "") = false ∧
    parseEnableNumpy none = false ∧
    (mainRun n (parseEnableNumpy (some s)) false).2 = 1 ∧
    MainEvent.benchmark "matrix_operations" "Single Threaded" ∈
      (mainRun n (parseEnableNumpy (some s)) true).1 := by
  have hs : parseEnableNumpy (some s) = true := by
    simp [parseEnableNumpy, pythonBool, h]
  refine ⟨hs, rfl, rfl, ?_, ?_⟩
  · rw [hs]
    rfl
  · rw [hs]
    simp [mainRun, benchmarkTrace]

/-- Witness for `enable_numpy_truthiness` at the argument text "False"
(so `--enable_numpy False` still enables the category). -/
theorem enable_numpy_truthiness_witness :
    "False" ≠ "" ∧
    (parseEnableNumpy (some "False") = true ∧
      parseEnableNumpy (some "") = false ∧
      parseEnableNumpy none = false ∧
      (mainRun 4 (parseEnableNumpy (some "False")) false).2 = 1 ∧
      MainEvent.benchmark "matrix_operations" "Single Threaded" ∈
        (mainRun 4 (parseEnableNumpy (some "False")) true).1) :=
  ⟨by decide, enable_numpy_truthiness "False" 4 (by decide)⟩
